import Mathlib

/-!
Shallow embedding of the Mail-Sender repository: the Express server in
src/app/server.js (JSON-file history store, REST handlers, nodemailer
dispatch, multer upload limits) and the browser client script
(src/unnamed/part_000). Pure data is embedded directly; the file system is
embedded as an explicit file-state value threaded through the store
helpers; the SMTP transport is embedded as an oracle argument giving the
outcome of transporter.sendMail.
-/

/-- A JSON value, used to state what JSON.stringify writes to the store
file. Numbers are restricted to naturals: the only numeric field the
server ever serializes is the record id, embedded as a Nat. -/
inductive Json where
  | null
  | bool (b : Bool)
  | num (n : Nat)
  | str (s : String)
  | arr (elems : List Json)
  | obj (fields : List (String × Json))

/-- A stored sent-email record: the object built in addEmail
(src/app/server.js lines 46-50), with the fields the send handler puts in
emailData (lines 303-310) spread in the middle. The id is
Date.now() + Math.random() in the source, a number; it is embedded as a
Nat supplied by the caller. -/
structure SentEmail where
  id : Nat
  «to» : String
  subject : String
  message : String
  attachments : List String
  messageId : String
  status : String
  sent_at : String
deriving Repr, DecidableEq

/-- JSON encoding of one record, field for field in the order the object
literal in addEmail lays them out. -/
def encodeEmail (e : SentEmail) : Json :=
  Json.obj [("id", Json.num e.id), ("to", Json.str e.«to»),
    ("subject", Json.str e.subject), ("message", Json.str e.message),
    ("attachments", Json.arr (e.attachments.map Json.str)),
    ("messageId", Json.str e.messageId), ("status", Json.str e.status),
    ("sent_at", Json.str e.sent_at)]

/-- JSON encoding of the whole database: the array JSON.stringify writes. -/
def encodeDb (emails : List SentEmail) : Json :=
  Json.arr (emails.map encodeEmail)

/-- Reads a JSON string value. -/
def decodeJsonStr : Json → Option String
  | Json.str s => some s
  | _ => none

/-- Reads a JSON array of strings. -/
def decodeStrList : List Json → Option (List String)
  | [] => some []
  | j :: js => do
    let s ← decodeJsonStr j
    let rest ← decodeStrList js
    pure (s :: rest)

/-- Decodes one stored record from the JSON shape encodeEmail produces. -/
def decodeEmail : Json → Option SentEmail
  | Json.obj [("id", Json.num i), ("to", Json.str t), ("subject", Json.str su),
      ("message", Json.str m), ("attachments", Json.arr a),
      ("messageId", Json.str mi), ("status", Json.str st),
      ("sent_at", Json.str sa)] => do
    let names ← decodeStrList a
    pure { id := i, «to» := t, subject := su, message := m, attachments := names,
           messageId := mi, status := st, sent_at := sa }
  | _ => none

/-- Decodes a list of stored records. -/
def decodeEmailList : List Json → Option (List SentEmail)
  | [] => some []
  | j :: js => do
    let e ← decodeEmail j
    let rest ← decodeEmailList js
    pure (e :: rest)

/-- Decodes the whole database from the JSON array shape. -/
def decodeDb : Json → Option (List SentEmail)
  | Json.arr xs => decodeEmailList xs
  | _ => none

/-- The state of the store file /app/data/emails.json as the read path can
observe it: absent, present but unreadable (readFileSync throws), present
but not parseable as JSON (JSON.parse throws), or holding a JSON value. -/
inductive FileState where
  | missing
  | unreadable
  | notJson (raw : String)
  | json (v : Json)

/-- readDatabase (src/app/server.js lines 24-32): readFileSync then
JSON.parse, with any error caught and turned into the empty list. The
source returns the parsed value unvalidated; since every write the server
performs stores an encoded record list, the embedding decodes the value
and restricts attention to file states whose JSON decodes (getD covers
the decoder rejecting a foreign value). -/
def readDatabase : FileState → List SentEmail
  | FileState.json v => (decodeDb v).getD []
  | _ => []

/-- writeDatabase (src/app/server.js lines 34-42): rewrites the whole file
with JSON.stringify of the list. A write error is caught and logged in the
source; the embedding takes the write to succeed. -/
def writeDatabase (data : List SentEmail) : FileState :=
  FileState.json (encodeDb data)

/-- The fields the send handler passes to addEmail (emailData, lines
303-310 of src/app/server.js). -/
structure EmailData where
  «to» : String
  subject : String
  message : String
  attachments : List String
  messageId : String
  status : String
deriving Repr, DecidableEq

/-- The new record addEmail builds: generated id, the spread emailData,
and the ISO timestamp; id and timestamp are oracle inputs here. -/
def mkSentEmail (d : EmailData) (newId : Nat) (now : String) : SentEmail :=
  { id := newId, «to» := d.«to», subject := d.subject, message := d.message,
    attachments := d.attachments, messageId := d.messageId,
    status := d.status, sent_at := now }

/-- addEmail (src/app/server.js lines 44-54): read, build the new record,
emails.unshift(newEmail) which puts it at the FRONT, rewrite the file,
return the new id. -/
def addEmail (file : FileState) (emailData : EmailData) (newId : Nat)
    (now : String) : FileState × Nat :=
  let emails := readDatabase file
  let newEmail := mkSentEmail emailData newId now
  let emails2 := newEmail :: emails
  (writeDatabase emails2, newEmail.id)

theorem decodeStrList_encode (l : List String) :
    decodeStrList (l.map Json.str) = some l := by
  induction l with
  | nil => rfl
  | cons s rest ih => simp [decodeStrList, decodeJsonStr, ih]

theorem decodeEmail_encodeEmail (e : SentEmail) :
    decodeEmail (encodeEmail e) = some e := by
  simp [encodeEmail, decodeEmail, decodeStrList_encode]

theorem decodeDb_encodeDb (l : List SentEmail) :
    decodeDb (encodeDb l) = some l := by
  suffices h : decodeEmailList (l.map encodeEmail) = some l by
    simpa [decodeDb, encodeDb] using h
  induction l with
  | nil => rfl
  | cons e rest ih => simp [decodeEmailList, decodeEmail_encodeEmail, ih]

theorem readDatabase_writeDatabase (l : List SentEmail) :
    readDatabase (writeDatabase l) = l := by
  simp [readDatabase, writeDatabase, decodeDb_encodeDb]

/-- JS Array.prototype.slice with nonnegative indexes, as used in
getEmails: elements from startIndex up to exclusive endIndex. -/
def jsSlice (l : List SentEmail) (startIndex endIndex : Nat) : List SentEmail :=
  (l.drop startIndex).take (endIndex - startIndex)

/-- The object getEmails returns (src/app/server.js lines 61-66). -/
structure GetEmailsResult where
  emails : List SentEmail
  total : Nat
  page : Nat
  totalPages : Nat
deriving Repr, DecidableEq

/-- getEmails (src/app/server.js lines 56-67). The route always passes page
and limit; Math.ceil(length / limit) is (length + limit - 1) / limit for
limit at least 1, the regime the pagination claim quantifies over (negative
query values are outside the embedding over Nat). -/
def getEmails (file : FileState) (page : Nat) (limit : Nat) : GetEmailsResult :=
  let emails := readDatabase file
  let startIndex := (page - 1) * limit
  let endIndex := startIndex + limit
  { emails := jsSlice emails startIndex endIndex
    total := emails.length
    page := page
    totalPages := (emails.length + limit - 1) / limit }

/-- The whitespace class of the JS regular-expression \s and of ToNumber
trimming, restricted to its ASCII members (the Unicode space characters
are outside the embedding and never arise in the strings the claims use). -/
def jsWsChar (c : Char) : Bool :=
  c = ' ' || c = '\t' || c = '\n' || c = '\r' || c = '\x0b' || c = '\x0c'

/-- Strips leading and trailing JS whitespace, as ToNumber does before
reading a numeric literal. -/
def trimChars (cs : List Char) : List Char :=
  ((cs.dropWhile jsWsChar).reverse.dropWhile jsWsChar).reverse

/-- Numeric value of a decimal digit character. -/
def charVal (c : Char) : Nat := c.toNat - 48

/-- Value of a nonempty string of decimal digits, most significant first. -/
def parseDecimal (cs : List Char) : Option Nat :=
  if cs ≠ [] ∧ cs.all Char.isDigit then
    some (Nat.ofDigits 10 ((cs.map charVal).reverse))
  else none

/-- ECMA ToNumber applied to a string, modelled on the fragment the ids of
this server exercise: optional surrounding whitespace around a nonnegative
decimal-digit literal, and the empty (or all-whitespace) string converting
to 0. Signs, fractions, exponents and hex literals never arise for the
decimal id strings the claims are about; a string outside the fragment is
treated as NaN (none), which compares unequal. -/
def jsToNumber? (s : String) : Option Nat :=
  let t := trimChars s.data
  if t = [] then some 0 else parseDecimal t

/-- JS loose equality between a number and a string, the comparison
email.id == id of getEmailById and email.id != id of deleteEmailById: the
string is converted with ToNumber and compared numerically. -/
def jsEqNumStr (n : Nat) (s : String) : Bool :=
  jsToNumber? s == some n

/-- getEmailById (src/app/server.js lines 69-72): linear scan with loose
equality (find stops at the first match). -/
def getEmailById (file : FileState) (id : String) : Option SentEmail :=
  (readDatabase file).find? (fun email => jsEqNumStr email.id id)

/-- deleteEmailById (src/app/server.js lines 74-82): keep every record
whose id does not loosely match, rewrite the file only when something was
removed, and report whether anything was. -/
def deleteEmailById (file : FileState) (id : String) : FileState × Bool :=
  let emails := readDatabase file
  let filteredEmails := emails.filter (fun email => !(jsEqNumStr email.id id))
  let deleted := emails.length != filteredEmails.length
  (if deleted then writeDatabase filteredEmails else file, deleted)

/-- Digit character for a value below 10. -/
def decDigitChar (d : Nat) : Char := Char.ofNat (48 + d)

/-- The decimal digit string of a natural number, most significant first:
the string in which a stored numeric id arrives in a URL path. -/
def decimalDigits (n : Nat) : List Char :=
  if n = 0 then ['0'] else ((Nat.digits 10 n).map decDigitChar).reverse

/-- The decimal string of a natural number. -/
def decimalString (n : Nat) : String := ⟨decimalDigits n⟩

/-- The truthiness test !to (and !subject, !message) applies to a field of
req.body: absent (undefined) and the empty string are falsy, every other
string is truthy. -/
def jsTruthy : Option String → Bool
  | none => false
  | some s => !(s == "")

/-- A character matched by the regex class [^\s@]. -/
def okAddrChar (c : Char) : Bool := !(jsWsChar c) && c != '@'

/-- The test emailRegex.test(to) for /^[^\s@]+@[^\s@]+\.[^\s@]+$/
(src/app/server.js line 255). The anchored pattern matches exactly the
strings of the form A ++ "@" ++ B ++ "." ++ C with A, B, C nonempty lists
of characters that are neither whitespace nor "@" (B and C may contain
further dots, so only the single "@" splits the string). Equivalently, as
computed here: the string has an "@"; the part before the first "@" is
nonempty and free of whitespace; the part after it is free of whitespace
and of further "@"; and that part contains a dot that is neither its
first nor its last character. -/
def emailRegexTest (s : String) : Bool :=
  let cs := s.data
  let localPart := cs.takeWhile (fun c => c != '@')
  match cs.dropWhile (fun c => c != '@') with
  | [] => false
  | _ :: domain =>
    !(localPart.isEmpty) && localPart.all okAddrChar && domain.all okAddrChar &&
      (domain.drop 1).dropLast.contains '.'

/-- The pagination object the emails listing responds with
(src/app/server.js lines 184-190). -/
structure Pagination where
  currentPage : Nat
  totalPages : Nat
  totalEmails : Nat
  hasNext : Bool
  hasPrev : Bool
deriving Repr, DecidableEq

/-- The success response of GET /api/emails (lines 181-191); the status of
the success path is 200. -/
structure EmailsListResponse where
  status : Nat
  success : Bool
  emails : List SentEmail
  pagination : Pagination
deriving Repr, DecidableEq

/-- GET /api/emails handler (src/app/server.js lines 174-199), after the
query parameters have been read (the route defaults a falsy parse result
to page 1, limit 10). -/
def apiGetEmails (file : FileState) (page limit : Nat) : EmailsListResponse :=
  let result := getEmails file page limit
  { status := 200
    success := true
    emails := result.emails
    pagination :=
      { currentPage := result.page
        totalPages := result.totalPages
        totalEmails := result.total
        hasNext := decide (result.page < result.totalPages)
        hasPrev := decide (1 < result.page) } }

/-- GET /api/emails/:id handler (src/app/server.js lines 202-216): status
404 with no record when lookup misses, else 200 with the record. -/
def apiGetEmail (file : FileState) (id : String) : Nat × Option SentEmail :=
  match getEmailById file id with
  | none => (404, none)
  | some email => (200, some email)

/-- DELETE /api/emails/:id handler (src/app/server.js lines 219-233):
status and resulting file state. -/
def apiDeleteEmail (file : FileState) (id : String) : Nat × FileState :=
  let result := deleteEmailById file id
  (if result.2 then 200 else 404, result.1)

/-- The three body fields the send handler destructures from req.body; a
field absent from the multipart form is undefined (none). -/
structure SendRequestBody where
  «to» : Option String
  subject : Option String
  message : Option String
deriving Repr, DecidableEq

/-- An uploaded attachment as the handler sees it in req.files: its
original name (the latin1-to-utf8 re-decoding of the wire name is embedded
as the identity on the already-decoded string) and its size in bytes. -/
structure UploadedFile where
  originalname : String
  size : Nat
deriving Repr, DecidableEq

/-- Outcome of transporter.sendMail, supplied as an oracle: either the
transport-assigned message id, or a thrown error. -/
inductive TransportResult where
  | sent (messageId : String)
  | failed (errMessage : String)
deriving Repr, DecidableEq

/-- The message handed to transporter.sendMail, restricted to the fields
the claims speak about (the derived html body is presentation built from
the same subject, message and attachment names). -/
structure MailMessage where
  «to» : String
  subject : String
  text : String
  attachmentNames : List String
deriving Repr, DecidableEq

/-- What a run of the POST /api/send-email handler produced: the HTTP
status, the success flag of the JSON body, the resulting store file, the
message forwarded to the SMTP transport (none when sendMail was never
reached), and the id the new record was saved under. -/
structure SendOutcome where
  status : Nat
  success : Bool
  file : FileState
  dispatched : Option MailMessage
  savedId : Option Nat

/-- POST /api/send-email handler (src/app/server.js lines 236-335), after
multer has accepted the upload: missing or empty to, subject or message
gives 400; a to failing the email regex gives 400; otherwise the message
is forwarded to the transport, and on transport success the record is
saved with addEmail and 200 is returned, while a transport error is caught
as 500. File cleanup is I/O outside the store model. -/
def apiSendEmail (file : FileState) (body : SendRequestBody)
    (files : List UploadedFile) (transport : TransportResult)
    (newId : Nat) (now : String) : SendOutcome :=
  if !(jsTruthy body.«to») || !(jsTruthy body.subject) || !(jsTruthy body.message) then
    { status := 400, success := false, file := file, dispatched := none, savedId := none }
  else if !(emailRegexTest (body.«to».getD "")) then
    { status := 400, success := false, file := file, dispatched := none, savedId := none }
  else
    let toAddr := body.«to».getD ""
    let subject := body.subject.getD ""
    let message := body.message.getD ""
    let attachmentNames := files.map (fun f => f.originalname)
    let mailMessage : MailMessage :=
      { «to» := toAddr, subject := subject, text := message,
        attachmentNames := attachmentNames }
    match transport with
    | TransportResult.failed _ =>
      { status := 500, success := false, file := file,
        dispatched := some mailMessage, savedId := none }
    | TransportResult.sent messageId =>
      let emailData : EmailData :=
        { «to» := toAddr, subject := subject, message := message,
          attachments := attachmentNames, messageId := messageId,
          status := "sent" }
      let result := addEmail file emailData newId now
      { status := 200, success := true, file := result.1,
        dispatched := some mailMessage, savedId := some result.2 }

/-- The extension allow-list of the multer fileFilter
(src/app/server.js line 107), a case-insensitive suffix test. -/
def allowedExtension (name : String) : Bool :=
  [".jpg", ".jpeg", ".png", ".gif", ".pdf", ".doc", ".docx", ".txt", ".zip",
   ".rar", ".xlsx", ".xls", ".ppt", ".pptx"].any
    (fun ext => (name.toLower).endsWith ext)

/-- Modelled from the spec: the multer middleware body is third-party code
outside this repository; its acceptance behaviour is modelled from its
configuration in src/app/server.js (limits.fileSize 10*1024*1024,
limits.files 5, maxCount 5 in upload.array, the fileFilter allow-list) and
the spec sentence "up to 5 attachments of at most 10MB each": the upload
is accepted exactly when there are at most 5 files, each at most
10*1024*1024 bytes, each with an allowed extension. -/
def uploadAccepts (files : List UploadedFile) : Bool :=
  decide (files.length ≤ 5) &&
    files.all (fun f =>
      decide (f.size ≤ 10 * 1024 * 1024) && allowedExtension f.originalname)

/-- The full POST /api/send-email route: multer runs first; a rejected
upload makes the route fail with the express error response (status 500)
before the handler, so nothing is dispatched and the store is untouched. -/
def apiSendEmailRoute (file : FileState) (body : SendRequestBody)
    (files : List UploadedFile) (transport : TransportResult)
    (newId : Nat) (now : String) : SendOutcome :=
  if uploadAccepts files then apiSendEmail file body files transport newId now
  else { status := 500, success := false, file := file, dispatched := none,
         savedId := none }

/-- The 10MB client-side limit in handleFileSelection. -/
def clientMaxFileSize : Nat := 10 * 1024 * 1024

/-- One step of the forEach in handleFileSelection
(src/unnamed/part_000 lines 105-120): skip a file already selected (same
name and size), skip (with an alert) a file over 10MB, otherwise push. -/
def addSelectedFile (selectedFiles : List UploadedFile) (f : UploadedFile) :
    List UploadedFile :=
  if selectedFiles.any (fun g => g.originalname == f.originalname && g.size == f.size) then
    selectedFiles
  else if clientMaxFileSize < f.size then
    selectedFiles
  else
    selectedFiles ++ [f]

/-- handleFileSelection (src/unnamed/part_000 lines 101-133): fold the new
files into the selection, then cap the selection at the first 5 files. -/
def handleFileSelection (selectedFiles newFiles : List UploadedFile) :
    List UploadedFile :=
  let sel := newFiles.foldl addSelectedFile selectedFiles
  if 5 < sel.length then sel.take 5 else sel

/-- ASCII case folding, the fragment of String.prototype.toLowerCase the
embedding uses (Unicode case mapping is outside the model). -/
def lowerChar (c : Char) : Char :=
  if 'A' ≤ c ∧ c ≤ 'Z' then Char.ofNat (c.toNat + 32) else c

/-- Case-insensitive substring test:
haystack.toLowerCase().includes(needle.toLowerCase()). -/
def containsCI (haystack needle : String) : Bool :=
  decide ((needle.data.map lowerChar) <:+: (haystack.data.map lowerChar))

/-- The subject line displayEmails renders into the h4 of an email item:
email.subject || 'No Subject' (src/unnamed/part_000 line 230). -/
def renderedSubject (e : SentEmail) : String :=
  if e.subject == "" then "No Subject" else e.subject

/-- Visibility handleSearch (src/unnamed/part_000 lines 180-192) gives one
rendered item: display block exactly when the lowercased h4 text contains
the lowercased search term. -/
def searchVisible (searchTerm : String) (e : SentEmail) : Bool :=
  containsCI (renderedSubject e) searchTerm

/-- handleSearch over the rendered list: it only toggles the display flag
of each already-rendered item; it issues no request and never touches the
store, which the type already shows (no FileState in, none out). -/
def handleSearch (searchTerm : String) (rendered : List SentEmail) :
    List (SentEmail × Bool) :=
  rendered.map (fun e => (e, searchVisible searchTerm e))

/-- Sample record used by the concrete witnesses. -/
def sampleEmail : SentEmail :=
  { id := 1, «to» := "a@b.c", subject := "Hi", message := "Hello",
    attachments := [], messageId := "mid-1", status := "sent",
    sent_at := "2024-01-01T00:00:00.000Z" }

/-- A second sample record with a different id. -/
def sampleEmail2 : SentEmail :=
  { sampleEmail with id := 2, subject := "Re" }

/-- A sample record with an empty subject, as a hand-written store file
could contain. -/
def sampleNoSubject : SentEmail :=
  { sampleEmail with id := 3, subject := "" }

/-- Sample payload for addEmail. -/
def sampleData : EmailData :=
  { «to» := "a@b.c", subject := "Hi", message := "Hello", attachments := [],
    messageId := "mid-1", status := "sent" }

/-- A store file holding the two sample records. -/
def sampleFile : FileState := writeDatabase [sampleEmail, sampleEmail2]

/-- A well-formed request body. -/
def sampleBody : SendRequestBody :=
  { «to» := some "a@b.c", subject := some "Hi", message := some "Hello" }

/-- A request body whose to field fails the email regex. -/
def badAddrBody : SendRequestBody :=
  { «to» := some "not-an-address", subject := some "Hi", message := some "Hello" }

/-- An uploaded file over the 10MB limit. -/
def sampleBigFile : UploadedFile :=
  { originalname := "big.pdf", size := 10 * 1024 * 1024 + 1 }

theorem decDigitChar_isDigit {d : Nat} (h : d < 10) :
    (decDigitChar d).isDigit = true := by
  interval_cases d <;> decide

theorem charVal_decDigitChar {d : Nat} (h : d < 10) :
    charVal (decDigitChar d) = d := by
  interval_cases d <;> decide

theorem decimalDigits_ne_nil (n : Nat) : decimalDigits n ≠ [] := by
  unfold decimalDigits
  split
  · simp
  · rename_i h
    simp [List.reverse_eq_nil_iff, List.map_eq_nil_iff,
      Nat.digits_ne_nil_iff_ne_zero.mpr h]

theorem decimalDigits_all_isDigit (n : Nat) :
    ∀ c ∈ decimalDigits n, c.isDigit = true := by
  unfold decimalDigits
  split
  · intro c hc
    simp only [List.mem_singleton] at hc
    subst hc
    decide
  · intro c hc
    rw [List.mem_reverse] at hc
    obtain ⟨d, hd, rfl⟩ := List.mem_map.mp hc
    exact decDigitChar_isDigit (Nat.digits_lt_base (by norm_num) hd)

theorem parseDecimal_decimalDigits (n : Nat) :
    parseDecimal (decimalDigits n) = some n := by
  unfold parseDecimal
  rw [if_pos ⟨decimalDigits_ne_nil n,
    List.all_eq_true.mpr (decimalDigits_all_isDigit n)⟩]
  by_cases h : n = 0
  · subst h
    decide
  · unfold decimalDigits
    rw [if_neg h]
    congr 1
    rw [List.map_reverse, List.reverse_reverse, List.map_map]
    have hmap : (Nat.digits 10 n).map (charVal ∘ decDigitChar) = Nat.digits 10 n := by
      have := List.map_congr_left (l := Nat.digits 10 n)
        (f := charVal ∘ decDigitChar) (g := id)
        (fun d hd => charVal_decDigitChar (Nat.digits_lt_base (by norm_num) hd))
      rw [this, List.map_id]
    rw [hmap, Nat.ofDigits_digits]

theorem not_jsWsChar_of_isDigit {c : Char} (h : c.isDigit = true) :
    jsWsChar c = false := by
  by_cases h1 : c = ' '
  · subst h1; exact absurd h (by decide)
  by_cases h2 : c = '\t'
  · subst h2; exact absurd h (by decide)
  by_cases h3 : c = '\n'
  · subst h3; exact absurd h (by decide)
  by_cases h4 : c = '\r'
  · subst h4; exact absurd h (by decide)
  by_cases h5 : c = '\x0b'
  · subst h5; exact absurd h (by decide)
  by_cases h6 : c = '\x0c'
  · subst h6; exact absurd h (by decide)
  simp [jsWsChar, h1, h2, h3, h4, h5, h6]

theorem dropWhile_eq_self_of_none {p : Char → Bool} {l : List Char}
    (h : ∀ a ∈ l, p a = false) : l.dropWhile p = l := by
  cases l with
  | nil => rfl
  | cons a as => simp [List.dropWhile_cons, h a (List.mem_cons_self a as)]

theorem trimChars_eq_self {l : List Char}
    (h : ∀ a ∈ l, jsWsChar a = false) : trimChars l = l := by
  unfold trimChars
  rw [dropWhile_eq_self_of_none h,
    dropWhile_eq_self_of_none (fun a ha => h a (List.mem_reverse.mp ha)),
    List.reverse_reverse]

theorem jsToNumber_decimalString (n : Nat) :
    jsToNumber? (decimalString n) = some n := by
  unfold jsToNumber? decimalString
  have hdata : (String.mk (decimalDigits n)).data = decimalDigits n := rfl
  rw [hdata, trimChars_eq_self
    (fun a ha => not_jsWsChar_of_isDigit (decimalDigits_all_isDigit n a ha))]
  rw [if_neg (decimalDigits_ne_nil n)]
  exact parseDecimal_decimalDigits n

theorem jsEqNumStr_decimalString (n : Nat) :
    jsEqNumStr n (decimalString n) = true := by
  simp [jsEqNumStr, jsToNumber_decimalString]

/-- C1: after every mutation of the history store (adding a record on a
successful send, deleting a record by id), the file on disk equals the
JSON encoding of the in-memory list: addEmail and deleteEmailById rewrite
the whole file with the JSON serialization of the updated list, and
reading the file back yields exactly that list. -/
theorem c1_mutations_rewrite_whole_file (file : FileState) (d : EmailData)
    (newId : Nat) (now : String) (idStr : String) :
    ((addEmail file d newId now).1 =
        FileState.json (encodeDb (mkSentEmail d newId now :: readDatabase file)) ∧
      readDatabase (addEmail file d newId now).1 =
        mkSentEmail d newId now :: readDatabase file) ∧
    ((deleteEmailById file idStr).1 =
        (if (deleteEmailById file idStr).2 then
          FileState.json (encodeDb
            ((readDatabase file).filter (fun e => !(jsEqNumStr e.id idStr))))
        else file) ∧
      ((deleteEmailById file idStr).2 = true →
        readDatabase (deleteEmailById file idStr).1 =
          (readDatabase file).filter (fun e => !(jsEqNumStr e.id idStr)))) := by
  refine ⟨⟨rfl, readDatabase_writeDatabase _⟩, rfl, fun h => ?_⟩
  have h1 : (deleteEmailById file idStr).1 =
      writeDatabase ((readDatabase file).filter (fun e => !(jsEqNumStr e.id idStr))) := by
    unfold deleteEmailById at h ⊢
    dsimp only at h ⊢
    rw [if_pos h]
  rw [h1, readDatabase_writeDatabase]

/-- C1 witness: deleting the record with id 1 from the sample store takes
the deleting branch, and the rewritten file reads back as the filtered
list. -/
theorem c1_mutations_rewrite_whole_file_witness :
    (deleteEmailById sampleFile "1").2 = true ∧
    readDatabase (deleteEmailById sampleFile "1").1 =
      (readDatabase sampleFile).filter (fun e => !(jsEqNumStr e.id "1")) :=
  ⟨by decide,
    (c1_mutations_rewrite_whole_file sampleFile sampleData 5 "t" "1").2.2 (by decide)⟩

/-- C3 counterexample: adding a record to a store holding one record does
not append it at the end; the stored list afterwards is the new record
followed by the old one, not the old record followed by the new. -/
theorem c3_unshift_counterexample :
    readDatabase (addEmail (writeDatabase [sampleEmail]) sampleData 2 "t").1 ≠
      readDatabase (writeDatabase [sampleEmail]) ++ [mkSentEmail sampleData 2 "t"] ∧
    readDatabase (addEmail (writeDatabase [sampleEmail]) sampleData 2 "t").1 =
      [mkSentEmail sampleData 2 "t", sampleEmail] := by
  decide

/-- C3 (amended): on every successful send the new record is placed at the
front of the stored list (unshift, newest first); every previously stored
record keeps its relative order, shifted one position toward the tail. -/
theorem c3_prepend_on_send (file : FileState) (d : EmailData) (newId : Nat)
    (now : String) :
    readDatabase (addEmail file d newId now).1 =
        mkSentEmail d newId now :: readDatabase file ∧
    (readDatabase (addEmail file d newId now).1)[0]? =
        some (mkSentEmail d newId now) ∧
    ∀ i : Nat, (readDatabase (addEmail file d newId now).1)[i + 1]? =
        (readDatabase file)[i]? := by
  refine ⟨readDatabase_writeDatabase _, ?_, fun i => ?_⟩ <;>
    rw [show (addEmail file d newId now).1 =
      writeDatabase (mkSentEmail d newId now :: readDatabase file) from rfl,
      readDatabase_writeDatabase] <;> simp

/-- C9: readDatabase is total over every state of the store file: a
missing, unreadable, or syntactically invalid file reads as the empty
list, so the listing, the id lookup, the delete and the add all treat a
corrupt or missing store as an empty history instead of failing. -/
theorem c9_corrupt_store_reads_empty (f : FileState) (page limit : Nat)
    (s : String) (d : EmailData) (newId : Nat) (now : String)
    (h : f = FileState.missing ∨ f = FileState.unreadable ∨
      ∃ raw, f = FileState.notJson raw) :
    readDatabase f = [] ∧
    getEmails f page limit =
      { emails := [], total := 0, page := page,
        totalPages := (limit - 1) / limit } ∧
    getEmailById f s = none ∧
    deleteEmailById f s = (f, false) ∧
    readDatabase (addEmail f d newId now).1 = [mkSentEmail d newId now] := by
  have hread : readDatabase f = [] := by
    rcases h with rfl | rfl | ⟨raw, rfl⟩ <;> rfl
  refine ⟨hread, ?_, ?_, ?_, ?_⟩
  · simp [getEmails, hread, jsSlice]
  · simp [getEmailById, hread]
  · simp [deleteEmailById, hread]
  · simp [addEmail, hread, readDatabase_writeDatabase]

/-- C9 witness: the missing store file behaves as an empty history for
every operation, at concrete arguments. -/
theorem c9_corrupt_store_reads_empty_witness :
    readDatabase FileState.missing = [] ∧
    getEmails FileState.missing 1 10 =
      { emails := [], total := 0, page := 1, totalPages := (10 - 1) / 10 } ∧
    getEmailById FileState.missing "1" = none ∧
    deleteEmailById FileState.missing "1" = (FileState.missing, false) ∧
    readDatabase (addEmail FileState.missing sampleData 7 "t").1 =
      [mkSentEmail sampleData 7 "t"] :=
  c9_corrupt_store_reads_empty FileState.missing 1 10 "1" sampleData 7 "t"
    (Or.inl rfl)

/-- C10: record ids are compared with JS loose equality, so for every
stored record the decimal string of its numeric id, as it arrives in a URL
path, matches the record: the id lookup returns a record bearing that id,
GET /api/emails/:id answers 200, DELETE /api/emails/:id answers 200, and
the record is removed, rather than any of them returning 404. -/
theorem c10_decimal_string_matches (file : FileState) (e : SentEmail)
    (he : e ∈ readDatabase file) :
    (∃ r, getEmailById file (decimalString e.id) = some r ∧ r.id = e.id) ∧
    (apiGetEmail file (decimalString e.id)).1 = 200 ∧
    (apiDeleteEmail file (decimalString e.id)).1 = 200 ∧
    e ∉ readDatabase (apiDeleteEmail file (decimalString e.id)).2 := by
  have hmatch : jsEqNumStr e.id (decimalString e.id) = true :=
    jsEqNumStr_decimalString e.id
  have hfind : ((readDatabase file).find?
      (fun x => jsEqNumStr x.id (decimalString e.id))).isSome :=
    List.find?_isSome.mpr ⟨e, he, hmatch⟩
  obtain ⟨r, hr⟩ := Option.isSome_iff_exists.mp hfind
  have hrid : r.id = e.id := by
    have hp : jsEqNumStr r.id (decimalString e.id) = true :=
      @List.find?_some SentEmail (fun x => jsEqNumStr x.id (decimalString e.id))
        r (readDatabase file) hr
    have h1 : jsToNumber? (decimalString e.id) = some r.id := by
      simpa [jsEqNumStr] using hp
    have h2 : jsToNumber? (decimalString e.id) = some e.id :=
      jsToNumber_decimalString e.id
    exact Option.some.inj (h1.symm.trans h2)
  have hget : getEmailById file (decimalString e.id) = some r := hr
  have hlt : (((readDatabase file).filter
      (fun x => !(jsEqNumStr x.id (decimalString e.id)))).length <
      (readDatabase file).length) :=
    List.length_filter_lt_length_iff_exists.mpr ⟨e, he, by simp [hmatch]⟩
  have hdel : (deleteEmailById file (decimalString e.id)).2 = true := by
    unfold deleteEmailById
    dsimp only
    exact bne_iff_ne.mpr (Nat.ne_of_gt hlt)
  have hfile : (deleteEmailById file (decimalString e.id)).1 =
      writeDatabase ((readDatabase file).filter
        (fun x => !(jsEqNumStr x.id (decimalString e.id)))) := by
    unfold deleteEmailById at hdel ⊢
    dsimp only at hdel ⊢
    rw [if_pos hdel]
  refine ⟨⟨r, hget, hrid⟩, ?_, ?_, ?_⟩
  · simp [apiGetEmail, hget]
  · simp [apiDeleteEmail, hdel]
  · intro hmem
    rw [show (apiDeleteEmail file (decimalString e.id)).2 =
        (deleteEmailById file (decimalString e.id)).1 from rfl,
      hfile, readDatabase_writeDatabase] at hmem
    have := (List.mem_filter.mp hmem).2
    simp [hmatch] at this

/-- C10 witness: both routes called with the decimal string of the first
sample id succeed, and the record is removed. -/
theorem c10_decimal_string_matches_witness :
    (apiGetEmail sampleFile (decimalString sampleEmail.id)).1 = 200 ∧
    (apiDeleteEmail sampleFile (decimalString sampleEmail.id)).1 = 200 ∧
    sampleEmail ∉
      readDatabase (apiDeleteEmail sampleFile (decimalString sampleEmail.id)).2 :=
  (c10_decimal_string_matches sampleFile sampleEmail (by decide)).2

/-- C2: a send request in which to, subject or message is missing or
empty, or whose to fails the email pattern, is answered with HTTP 400 (and
only those requests are), and for such a request nothing is forwarded to
the SMTP transport and the history store is unchanged: the shape
validation runs before the mail dispatch. -/
theorem c2_validation_before_dispatch (file : FileState)
    (body : SendRequestBody) (files : List UploadedFile)
    (transport : TransportResult) (newId : Nat) (now : String) :
    ((apiSendEmail file body files transport newId now).status = 400 ↔
      (jsTruthy body.«to» = false ∨ jsTruthy body.subject = false ∨
        jsTruthy body.message = false ∨
        emailRegexTest (body.«to».getD "") = false)) ∧
    ((apiSendEmail file body files transport newId now).status = 400 →
      (apiSendEmail file body files transport newId now).dispatched = none ∧
      (apiSendEmail file body files transport newId now).file = file) := by
  cases h1 : jsTruthy body.«to» <;> cases h2 : jsTruthy body.subject <;>
    cases h3 : jsTruthy body.message <;>
    cases h4 : emailRegexTest (body.«to».getD "") <;>
    cases transport <;>
    simp [apiSendEmail, h1, h2, h3, h4]

/-- C2 witness: a request whose to field fails the email pattern gets 400,
nothing is dispatched, and the store file is unchanged. -/
theorem c2_validation_before_dispatch_witness :
    (apiSendEmail sampleFile badAddrBody []
        (TransportResult.sent "x") 9 "t").dispatched = none ∧
    (apiSendEmail sampleFile badAddrBody []
        (TransportResult.sent "x") 9 "t").file = sampleFile :=
  (c2_validation_before_dispatch sampleFile badAddrBody []
      (TransportResult.sent "x") 9 "t").2
    ((c2_validation_before_dispatch sampleFile badAddrBody []
        (TransportResult.sent "x") 9 "t").1.mpr
      (Or.inr (Or.inr (Or.inr (by decide)))))

/-- C6: on a successful send the record persisted at the head of the store
carries the transport-assigned message id, the status tag "sent", the
recipient, the subject, the body text, the attachment file names, the
generated id and the send timestamp. -/
theorem c6_sent_record_fields (file : FileState) (body : SendRequestBody)
    (files : List UploadedFile) (mid : String) (newId : Nat) (now : String)
    (h1 : jsTruthy body.«to» = true) (h2 : jsTruthy body.subject = true)
    (h3 : jsTruthy body.message = true)
    (h4 : emailRegexTest (body.«to».getD "") = true) :
    (apiSendEmail file body files (TransportResult.sent mid) newId now).status
        = 200 ∧
    ∃ rec,
      readDatabase
          (apiSendEmail file body files (TransportResult.sent mid) newId now).file
        = rec :: readDatabase file ∧
      rec.messageId = mid ∧ rec.status = "sent" ∧
      rec.«to» = body.«to».getD "" ∧ rec.subject = body.subject.getD "" ∧
      rec.message = body.message.getD "" ∧
      rec.attachments = files.map (fun f => f.originalname) ∧
      rec.id = newId ∧ rec.sent_at = now := by
  refine ⟨?_, mkSentEmail
    { «to» := body.«to».getD "", subject := body.subject.getD "",
      message := body.message.getD "",
      attachments := files.map (fun f => f.originalname), messageId := mid,
      status := "sent" } newId now, ?_, rfl, rfl, rfl, rfl, rfl, rfl, rfl, rfl⟩
  · simp [apiSendEmail, h1, h2, h3, h4]
  · simp [apiSendEmail, h1, h2, h3, h4, addEmail, readDatabase_writeDatabase,
      mkSentEmail]

/-- C6 witness: the status conjunct at a concrete well-formed request. -/
theorem c6_sent_record_fields_witness :
    (apiSendEmail sampleFile sampleBody []
        (TransportResult.sent "msg-7") 9 "t").status = 200 :=
  (c6_sent_record_fields sampleFile sampleBody [] "msg-7" 9 "t"
    (by decide) (by decide) (by decide) (by decide)).1

/-- C4: for page p and limit l at least 1, getEmails pages by offset: it
returns the records at offsets (p-1)*l through p*l - 1 of the stored list
(fewer at the tail), total is the stored length, totalPages is the ceiling
of total over l (characterized as the least k with total at most l * k),
and the route reports hasNext exactly when p < totalPages and hasPrev
exactly when p > 1. -/
theorem c4_offset_pagination (file : FileState) (p l : Nat)
    (_hp : 1 ≤ p) (hl : 1 ≤ l) :
    (getEmails file p l).emails =
        ((readDatabase file).drop ((p - 1) * l)).take l ∧
    (∀ i : Nat, i < l → ((getEmails file p l).emails)[i]? =
        (readDatabase file)[(p - 1) * l + i]?) ∧
    (getEmails file p l).total = (readDatabase file).length ∧
    (∀ k : Nat, ((getEmails file p l).totalPages ≤ k ↔
        (readDatabase file).length ≤ l * k)) ∧
    (apiGetEmails file p l).pagination.hasNext =
        decide (p < (getEmails file p l).totalPages) ∧
    (apiGetEmails file p l).pagination.hasPrev = decide (1 < p) := by
  have hemails : (getEmails file p l).emails =
      ((readDatabase file).drop ((p - 1) * l)).take l := by
    simp [getEmails, jsSlice]
  refine ⟨hemails, fun i hi => ?_, rfl, fun k => ?_, rfl, rfl⟩
  · rw [hemails, List.getElem?_take, if_pos hi, List.getElem?_drop]
  · show ((readDatabase file).length + l - 1) / l ≤ k ↔ _
    rw [← Nat.ceilDiv_eq_add_pred_div]
    exact ceilDiv_le_iff_le_mul (Nat.lt_of_lt_of_le Nat.zero_lt_one hl)

/-- C4 witness: the offset slice, the total and the flags at page 1 of
size 2 over the sample store. -/
theorem c4_offset_pagination_witness :
    (getEmails sampleFile 1 2).emails =
        ((readDatabase sampleFile).drop ((1 - 1) * 2)).take 2 ∧
    (getEmails sampleFile 1 2).total = (readDatabase sampleFile).length ∧
    (apiGetEmails sampleFile 1 2).pagination.hasPrev = decide (1 < 1) :=
  ⟨(c4_offset_pagination sampleFile 1 2 (by decide) (by decide)).1,
    (c4_offset_pagination sampleFile 1 2 (by decide) (by decide)).2.2.1,
    (c4_offset_pagination sampleFile 1 2 (by decide) (by decide)).2.2.2.2.2⟩

/-- C5: DELETE /api/emails/:id removes exactly the records whose id
loosely matches the path id, keeping the remaining records in their
relative order (the result is the linear-scan filter, a sublist of the
original), and answers 200; when no stored record matches it answers 404
and the store, in memory and on disk, is untouched. -/
theorem c5_delete_filters_or_404 (file : FileState) (idStr : String) :
    ((∃ e ∈ readDatabase file, jsEqNumStr e.id idStr = true) →
      (apiDeleteEmail file idStr).1 = 200 ∧
      readDatabase (apiDeleteEmail file idStr).2 =
        (readDatabase file).filter (fun e => !(jsEqNumStr e.id idStr)) ∧
      (readDatabase (apiDeleteEmail file idStr).2).Sublist (readDatabase file)) ∧
    ((∀ e ∈ readDatabase file, jsEqNumStr e.id idStr = false) →
      (apiDeleteEmail file idStr).1 = 404 ∧
      (apiDeleteEmail file idStr).2 = file) := by
  constructor
  · rintro ⟨e, he, hmatch⟩
    have hlt : (((readDatabase file).filter
        (fun x => !(jsEqNumStr x.id idStr))).length <
        (readDatabase file).length) :=
      List.length_filter_lt_length_iff_exists.mpr ⟨e, he, by simp [hmatch]⟩
    have hdel : (deleteEmailById file idStr).2 = true := by
      unfold deleteEmailById
      dsimp only
      exact bne_iff_ne.mpr (Nat.ne_of_gt hlt)
    have hfile : (deleteEmailById file idStr).1 =
        writeDatabase ((readDatabase file).filter
          (fun x => !(jsEqNumStr x.id idStr))) := by
      unfold deleteEmailById at hdel ⊢
      dsimp only at hdel ⊢
      rw [if_pos hdel]
    have hread : readDatabase (apiDeleteEmail file idStr).2 =
        (readDatabase file).filter (fun x => !(jsEqNumStr x.id idStr)) := by
      rw [show (apiDeleteEmail file idStr).2 = (deleteEmailById file idStr).1
        from rfl, hfile, readDatabase_writeDatabase]
    refine ⟨by simp [apiDeleteEmail, hdel], hread, ?_⟩
    rw [hread]
    exact List.filter_sublist _
  · intro hnone
    have hfilter : (readDatabase file).filter
        (fun x => !(jsEqNumStr x.id idStr)) = readDatabase file :=
      List.filter_eq_self.mpr (fun a ha => by simp [hnone a ha])
    have hdel : (deleteEmailById file idStr).2 = false := by
      unfold deleteEmailById
      dsimp only
      rw [hfilter]
      simp
    have hfile : (deleteEmailById file idStr).1 = file := by
      unfold deleteEmailById at hdel ⊢
      dsimp only at hdel ⊢
      rw [if_neg (by rw [hdel]; exact Bool.false_ne_true)]
    exact ⟨by simp [apiDeleteEmail, hdel], hfile⟩

/-- C5 witness: deleting id 1 from the sample store answers 200, and
deleting the unmatched id 99 answers 404 with the file untouched. -/
theorem c5_delete_filters_or_404_witness :
    (apiDeleteEmail sampleFile "1").1 = 200 ∧
    (apiDeleteEmail sampleFile "99").1 = 404 ∧
    (apiDeleteEmail sampleFile "99").2 = sampleFile :=
  ⟨((c5_delete_filters_or_404 sampleFile "1").1
      ⟨sampleEmail, by decide, by decide⟩).1,
    ((c5_delete_filters_or_404 sampleFile "99").2 (by decide)).1,
    ((c5_delete_filters_or_404 sampleFile "99").2 (by decide)).2⟩

theorem mem_addSelectedFile {sel : List UploadedFile} {f g : UploadedFile}
    (h : g ∈ addSelectedFile sel f) :
    g ∈ sel ∨ (g = f ∧ f.size ≤ clientMaxFileSize) := by
  unfold addSelectedFile at h
  split at h
  · exact Or.inl h
  · split at h
    · exact Or.inl h
    · rename_i hsize
      rcases List.mem_append.mp h with h2 | h2
      · exact Or.inl h2
      · simp only [List.mem_singleton] at h2
        exact Or.inr ⟨h2, Nat.le_of_not_lt hsize⟩

theorem mem_foldl_addSelectedFile :
    ∀ (newFiles sel : List UploadedFile) (g : UploadedFile),
      g ∈ newFiles.foldl addSelectedFile sel →
      g ∈ sel ∨ (g ∈ newFiles ∧ g.size ≤ clientMaxFileSize) := by
  intro newFiles
  induction newFiles with
  | nil => exact fun sel g h => Or.inl h
  | cons f fs ih =>
    intro sel g h
    rcases ih (addSelectedFile sel f) g h with h2 | ⟨hmem, hsz⟩
    · rcases mem_addSelectedFile h2 with h3 | ⟨rfl, hsz⟩
      · exact Or.inl h3
      · exact Or.inr ⟨List.mem_cons_self _ _, hsz⟩
    · exact Or.inr ⟨List.mem_cons_of_mem f hmem, hsz⟩

/-- C7: the upload path enforces at most 5 attachments of at most
10*1024*1024 bytes each: a request whose files exceed either limit is
rejected by the configured multer middleware before the handler, so
nothing reaches the SMTP transport and the store is unchanged; and the
browser client never keeps more than 5 selected files, every file it adds
to the selection being at most 10MB. -/
theorem c7_attachment_limits (file : FileState) (body : SendRequestBody)
    (files : List UploadedFile) (transport : TransportResult)
    (newId : Nat) (now : String) (sel newFiles : List UploadedFile) :
    ((5 < files.length ∨ ∃ f ∈ files, 10 * 1024 * 1024 < f.size) →
      (apiSendEmailRoute file body files transport newId now).dispatched = none ∧
      (apiSendEmailRoute file body files transport newId now).file = file ∧
      (apiSendEmailRoute file body files transport newId now).status ≠ 200) ∧
    (handleFileSelection sel newFiles).length ≤ 5 ∧
    (∀ f ∈ handleFileSelection sel newFiles,
      f ∈ sel ∨ (f ∈ newFiles ∧ f.size ≤ 10 * 1024 * 1024)) := by
  refine ⟨fun h => ?_, ?_, fun f hf => ?_⟩
  · have hacc : uploadAccepts files = false := by
      rcases h with hlen | ⟨f, hf, hsize⟩
      · simp [uploadAccepts, Nat.not_le.mpr hlen]
      · unfold uploadAccepts
        cases hb : files.all (fun g =>
            decide (g.size ≤ 10 * 1024 * 1024) &&
              allowedExtension g.originalname) with
        | false => rw [Bool.and_false]
        | true =>
          exfalso
          have h2 := List.all_eq_true.mp hb f hf
          simp [Nat.not_le.mpr hsize] at h2
    simp [apiSendEmailRoute, hacc]
  · unfold handleFileSelection
    dsimp only
    split
    · rw [List.length_take]
      exact Nat.min_le_left 5 _
    · rename_i hlen
      exact Nat.le_of_not_lt hlen
  · have hf2 : f ∈ newFiles.foldl addSelectedFile sel := by
      revert hf
      unfold handleFileSelection
      dsimp only
      split
      · exact fun hf => (List.take_sublist 5 _).subset hf
      · exact fun hf => hf
    exact mem_foldl_addSelectedFile newFiles sel f hf2

/-- C7 witness: a request with one 10MB-plus-one-byte file is rejected
with nothing dispatched, the store untouched and a non-200 status. -/
theorem c7_attachment_limits_witness :
    (apiSendEmailRoute sampleFile sampleBody [sampleBigFile]
        (TransportResult.sent "x") 9 "t").dispatched = none ∧
    (apiSendEmailRoute sampleFile sampleBody [sampleBigFile]
        (TransportResult.sent "x") 9 "t").file = sampleFile ∧
    (apiSendEmailRoute sampleFile sampleBody [sampleBigFile]
        (TransportResult.sent "x") 9 "t").status ≠ 200 :=
  (c7_attachment_limits sampleFile sampleBody [sampleBigFile]
      (TransportResult.sent "x") 9 "t" [] []).1
    (Or.inr ⟨sampleBigFile, by decide, by decide⟩)

/-- C8 counterexample: a record with an empty subject is rendered with the
placeholder subject line, so the search for "o" keeps it visible although
its subject does not contain the term. -/
theorem c8_placeholder_counterexample :
    searchVisible "o" sampleNoSubject = true ∧
    containsCI sampleNoSubject.subject "o" = false := by
  decide

/-- C8 (amended): search is a pure client-side filter of the rendered
records: no record is removed and nothing is fetched (handleSearch only
pairs each already-rendered record with a visibility flag), and a record
stays visible exactly when the subject line rendered for it, which is its
subject, or the placeholder string when the subject is empty, contains the
search term case-insensitively; in particular for every record with a
non-empty subject, which every server-stored record has, visibility is the
case-insensitive containment of the term in the subject itself. -/
theorem c8_search_is_client_side_filter (term : String) (es : List SentEmail) :
    (handleSearch term es).map Prod.fst = es ∧
    (∀ e ∈ es, (e, searchVisible term e) ∈ handleSearch term es) ∧
    (∀ e : SentEmail, searchVisible term e =
      containsCI (renderedSubject e) term) ∧
    (∀ e : SentEmail, e.subject ≠ "" →
      searchVisible term e = containsCI e.subject term) := by
  refine ⟨?_, fun e he => ?_, fun e => rfl, fun e h => ?_⟩
  · induction es with
    | nil => rfl
    | cons e rest ih => simpa [handleSearch] using ih
  · exact List.mem_map_of_mem (fun e => (e, searchVisible term e)) he
  · unfold searchVisible renderedSubject
    rw [if_neg (by simpa using h)]

/-- C8 witness: the search leaves the sample list intact and, on the
non-empty sample subject, agrees with containment in the subject itself. -/
theorem c8_search_is_client_side_filter_witness :
    (handleSearch "hi" [sampleEmail]).map Prod.fst = [sampleEmail] ∧
    searchVisible "hi" sampleEmail = containsCI sampleEmail.subject "hi" :=
  ⟨(c8_search_is_client_side_filter "hi" [sampleEmail]).1,
    (c8_search_is_client_side_filter "hi" [sampleEmail]).2.2.2 sampleEmail
      (by decide)⟩
